import Mathlib

/-!
Shallow embedding of the video-generation orchestration pipeline of the
edaptiv-learning repository: the `AdaptedContent` data model and its
dedup/cache lookup (src/learning/models.py), the D-ID render client
(src/utils/ai_integration.py), and the web-layer generation and status
views (src/learning/views.py), together with the module-import structure
of the background-generation path.

Text values manipulated character-wise by the source (Python `str` with
slicing, `strip`, length checks) are embedded as `List Char`; values only
compared for equality (URLs, error messages, provider statuses) are
embedded as `String`.  Database tables are embedded as lists of records,
and each Django view is a pure state-transition function on them.
-/



/-- Status enumeration of `AdaptedContent.video_generation_status`
(src/learning/models.py lines 297-306): pending / generating / ready /
failed. -/
inductive VideoStatus where
  | pending
  | generating
  | ready
  | failed
deriving DecidableEq

/-- Rendering of a `VideoStatus` as the stored choice string of
src/learning/models.py lines 299-304. -/
def statusString : VideoStatus → String
  | VideoStatus.pending => "pending"
  | VideoStatus.generating => "generating"
  | VideoStatus.ready => "ready"
  | VideoStatus.failed => "failed"

/-- One row of the `AdaptedContent` table (src/learning/models.py lines
274-307).  Foreign keys are embedded as numeric ids; the many-to-many
`applied_challenges` as a list of challenge ids; nullable columns as
`Option`. -/
structure AdaptedContent where
  originalMaterial : Nat
  student : Nat
  adaptedText : List Char
  adaptationNotes : List Char
  appliedLearningStyle : Option Nat
  appliedChallenges : List Nat
  videoUrl : Option String
  videoTalkId : Option String
  videoDuration : Option Nat
  videoGenerationStatus : VideoStatus
  videoErrorMessage : Option String
  videoGeneratedAt : Option Nat
deriving DecidableEq

/-- Python truthiness of a nullable URL field: `None` and the empty
string are falsy, any other string is truthy.  This is the test
`if adapted_content.video_url` of src/learning/views.py line 356. -/
def optTruthy : Option String → Bool
  | none => false
  | some s => !(s == "")

/-- Python `set(a) == set(b)` on challenge-id collections, as evaluated
by `AdaptedContent.find_matching_video` (src/learning/models.py lines
337-341): order-independent, duplicate-insensitive set equality. -/
def challengeSetEq (a b : List Nat) : Bool :=
  a.all (fun x => b.contains x) && b.all (fun x => a.contains x)

/-- The queryset filter of `AdaptedContent.find_matching_video`
(src/learning/models.py lines 328-333): same material, same applied
learning style, a non-null video URL, and status `ready`. -/
def matchesFilter (material : Nat) (style : Option Nat) (c : AdaptedContent) : Bool :=
  c.originalMaterial == material && c.appliedLearningStyle == style &&
    c.videoUrl.isSome && decide (c.videoGenerationStatus = VideoStatus.ready)

/-- `AdaptedContent.find_matching_video` (src/learning/models.py lines
321-348): filter the table by material / learning style / has-ready-video,
then return the first row whose challenge set equals the requested set
(or, for an empty request set, the first row with no challenges). -/
def find_matching_video (db : List AdaptedContent) (material : Nat)
    (style : Option Nat) (challenges : List Nat) : Option AdaptedContent :=
  let matching := db.filter (matchesFilter material style)
  if challenges.isEmpty then
    matching.find? (fun c => c.appliedChallenges.isEmpty)
  else
    matching.find? (fun c => challengeSetEq c.appliedChallenges challenges)

/-- Python `str.strip()`: drop whitespace from both ends. -/
def pyStrip (s : List Char) : List Char :=
  ((s.dropWhile Char.isWhitespace).reverse.dropWhile Char.isWhitespace).reverse

/-- The ellipsis marker appended by the truncation sites
(src/utils/ai_integration.py line 98, src/learning/views.py line 409). -/
def ellipsis : List Char := ['.', '.', '.']

/-- The 3000-character cap of `DIDVideoGenerator.create_video`
(src/utils/ai_integration.py lines 96-98): a script longer than 3000
characters becomes its first 2997 characters followed by `...`. -/
def did_truncate (s : List Char) : List Char :=
  if s.length > 3000 then s.take 2997 ++ ellipsis else s

/-- The script payload computed by `DIDVideoGenerator.create_video`
before submission (src/utils/ai_integration.py lines 81-98): scripts
whose stripped length is under 3 are rejected (`none`); otherwise the
payload is the stripped script, capped by `did_truncate`. -/
def create_video_payload_script (s : List Char) : Option (List Char) :=
  if (pyStrip s).length < 3 then none else some (did_truncate (pyStrip s))

/-- One response of the D-ID status endpoint as read by `wait_for_video`
(src/utils/ai_integration.py lines 210-219): a status string, an optional
`result_url` and an optional provider error detail. -/
structure PollResponse where
  status : String
  result_url : Option String
  error : Option String

/-- One HTTP response body, delivered by the network in chunks.
`requests` exposes it either chunkwise (streaming) or concatenated at
once via `.content`. -/
structure HttpBody where
  ok : Bool
  chunks : List (List Nat)

/-- The byte value produced by accessing `response.content`: every chunk
of the body concatenated into a single in-memory bytes object. -/
def response_content (chunks : List (List Nat)) : List Nat :=
  chunks.flatten

/-- `DIDVideoGenerator.download_video` (src/utils/ai_integration.py lines
53-69): fetch the URL and return `response.content` — the complete body
as one bytes value — or `None` on any error. -/
def download_video (body : HttpBody) : Option (List Nat) :=
  if body.ok then some (response_content body.chunks) else none

/-- Peak number of body bytes simultaneously resident in process memory
during `download_video`: the access to `response.content` materializes
the whole body at once. -/
def download_resident_bytes (body : HttpBody) : Nat :=
  (response_content body.chunks).length

/-- The behaviour of the external D-ID service during one
`create_video` call: whether the submit POST succeeds (and with which
talk id / duration / error), the sequence of poll responses indexed by
poll number, and the body served for a result-URL download. -/
structure ProviderSession where
  submit_ok : Bool
  submit_error : String
  talk_id : String
  duration : Nat
  polls : Nat → PollResponse
  download : String → HttpBody

/-- The polling loop of `wait_for_video` (src/utils/ai_integration.py
lines 202-225), one constructor step per iteration: on status `done`
return the (possibly absent) `result_url`; on status `error` the raise at
line 219 is caught by the except at line 223 of the same try block, so
the function returns `None`; otherwise sleep and poll again. -/
def wait_for_video_aux (polls : Nat → PollResponse) : Nat → Nat → Option String
  | _, 0 => none
  | i, fuel + 1 =>
    let r := polls i
    if r.status == "done" then r.result_url
    else if r.status == "error" then none
    else wait_for_video_aux polls (i + 1) fuel

/-- `DIDVideoGenerator.wait_for_video` (src/utils/ai_integration.py lines
196-228): poll every 5 seconds while the elapsed time is below
`max_wait` (180 seconds by default), so at most `ceil (max_wait / 5)`
iterations run; exhausting the window yields `None` (timeout). -/
def wait_for_video (polls : Nat → PollResponse) (max_wait : Nat) : Option String :=
  wait_for_video_aux polls 0 ((max_wait + 4) / 5)

/-- The dictionary returned by `DIDVideoGenerator.create_video`
(src/utils/ai_integration.py lines 72-184). -/
structure VideoResult where
  success : Bool
  video_url : Option String
  video_content : Option (List Nat)
  talk_id : Option String
  duration : Nat
  error : Option String
deriving DecidableEq

/-- `DIDVideoGenerator.create_video` (src/utils/ai_integration.py lines
72-184): validate and cap the script, submit the render job, poll via
`wait_for_video`, download the result.  Every raised exception is caught
by the broad except at line 176 and folded into a failure dictionary
whose `error` is the exception text, so a `None` from `wait_for_video`
(timeout or provider error status alike) surfaces as the generic message
of line 157. -/
def create_video (script : List Char) (session : ProviderSession) : VideoResult :=
  match create_video_payload_script script with
  | none =>
    { success := false, video_url := none, video_content := none,
      talk_id := none, duration := 0, error := some ("Script is too short or empty") }
  | some _payload =>
    if session.submit_ok = false then
      { success := false, video_url := none, video_content := none,
        talk_id := none, duration := 0, error := some session.submit_error }
    else
      match wait_for_video session.polls 180 with
      | none =>
        { success := false, video_url := none, video_content := none,
          talk_id := none, duration := 0,
          error := some ("Video generation failed or timed out") }
      | some url =>
        if url == "" then
          { success := false, video_url := none, video_content := none,
            talk_id := none, duration := 0,
            error := some ("Video generation failed or timed out") }
        else
          match download_video (session.download url) with
          | none =>
            { success := false, video_url := none, video_content := none,
              talk_id := none, duration := 0,
              error := some ("Failed to download video") }
          | some content =>
            { success := true, video_url := some url,
              video_content := some content, talk_id := some session.talk_id,
              duration := session.duration, error := none }

/-- The JSON body returned by the `generate_video` view
(src/learning/views.py lines 355-450); fields absent from a given
response are `none`. -/
structure GenerateResponse where
  success : Bool
  video_url : Option String
  status : Option String
  cached : Option Bool
  error : Option String
deriving DecidableEq

/-- Result of one `generate_video` request on one entity: the entity as
finally persisted, the number of `DIDVideoGenerator.create_video`
invocations, the list of intermediate `save()` snapshots in order, and
the JSON response. -/
structure StepResult where
  entity : AdaptedContent
  providerCalls : Nat
  savedStates : List AdaptedContent
  response : GenerateResponse
deriving DecidableEq

/-- The script preparation of the `generate_video` view
(src/learning/views.py lines 400-409): strip the adapted text, fall back
to a templated greeting when it is shorter than 10 characters, and cap
the result at 3000 characters with an ellipsis. -/
def views_script (adaptedText title description : List Char) : List Char :=
  let s := pyStrip adaptedText
  let s := if s.length < 10
    then ("Hello! Let me explain ").data ++ title ++ (". ").data ++ description
    else s
  if s.length > 3000 then s.take 2997 ++ ellipsis else s

/-- The core of the `generate_video` view (src/learning/views.py lines
355-450) acting on the adapted-content row `ac` of the requesting
student: (1) if the row has a truthy video URL and status `ready`,
return it as cached with no provider call; (2) if the status is
`generating`, report that; (3) otherwise consult
`find_matching_video` over the whole table and on a hit copy the cached
video fields and mark `ready`; (4) otherwise mark `generating`, save,
invoke the provider once and persist `ready` or `failed`. -/
def generate_video_step (db : List AdaptedContent) (material : Nat)
    (ac : AdaptedContent) (style : Option Nat) (challenges : List Nat)
    (title description : List Char) (session : ProviderSession) (now : Nat) :
    StepResult :=
  if optTruthy ac.videoUrl = true ∧ ac.videoGenerationStatus = VideoStatus.ready then
    { entity := ac, providerCalls := 0, savedStates := [],
      response := { success := true, video_url := ac.videoUrl,
                    status := some ("ready"), cached := some true, error := none } }
  else if ac.videoGenerationStatus = VideoStatus.generating then
    { entity := ac, providerCalls := 0, savedStates := [],
      response := { success := true, video_url := none,
                    status := some ("generating"), cached := none, error := none } }
  else
    match find_matching_video db material style challenges with
    | some m =>
      let ac' := { ac with
        videoUrl := m.videoUrl, videoTalkId := m.videoTalkId,
        videoDuration := m.videoDuration,
        videoGenerationStatus := VideoStatus.ready,
        videoGeneratedAt := m.videoGeneratedAt }
      { entity := ac', providerCalls := 0, savedStates := [ac'],
        response := { success := true, video_url := ac'.videoUrl,
                      status := some ("ready"), cached := some true, error := none } }
    | none =>
      let acGen := { ac with videoGenerationStatus := VideoStatus.generating }
      let script := views_script ac.adaptedText title description
      let r := create_video script session
      if r.success = true then
        let ac' := { acGen with
          videoUrl := r.video_url, videoTalkId := r.talk_id,
          videoDuration := some r.duration,
          videoGenerationStatus := VideoStatus.ready,
          videoGeneratedAt := some now, videoErrorMessage := none }
        { entity := ac', providerCalls := 1, savedStates := [acGen, ac'],
          response := { success := true, video_url := r.video_url,
                        status := some ("ready"), cached := some false, error := none } }
      else
        let ac' := { acGen with
          videoGenerationStatus := VideoStatus.failed,
          videoErrorMessage := some (r.error.getD ("Unknown error")) }
        { entity := ac', providerCalls := 1, savedStates := [acGen, ac'],
          response := { success := false, video_url := none,
                        status := some ("failed"), cached := none,
                        error := some (r.error.getD ("Video generation failed")) } }

/-- Row lookup predicate of `AdaptedContent.objects.get(original_material=...,
student=...)` used by the views (src/learning/views.py lines 350, 474). -/
def acKeyMatches (material student : Nat) (ac : AdaptedContent) : Bool :=
  ac.originalMaterial == material && ac.student == student

/-- The JSON body returned by the `check_video_status` view
(src/learning/views.py lines 466-490), extended with a count of
`utils.s3.generate_presigned_url` invocations performed while producing
it. -/
structure StatusResponse where
  success : Bool
  status : Option String
  video_url : Option String
  error : Option String
  presignCalls : Nat
deriving DecidableEq

/-- The `check_video_status` view (src/learning/views.py lines 466-490):
look up the row for (material, student) and echo its stored status,
stored video URL and stored error message verbatim.  The view body never
calls `utils.s3.generate_presigned_url` (src/utils/s3.py lines 32-39), so
`presignCalls` is 0 on every path. -/
def check_video_status (db : List AdaptedContent) (material student : Nat) :
    StatusResponse :=
  match db.find? (acKeyMatches material student) with
  | some ac =>
    { success := true, status := some (statusString ac.videoGenerationStatus),
      video_url := ac.videoUrl, error := ac.videoErrorMessage, presignCalls := 0 }
  | none =>
    { success := false, status := none, video_url := none,
      error := some ("Content not found"), presignCalls := 0 }

/-- Replace the first list element satisfying `p` by its image under
`f`; the embedding of a Django `get`-then-`save` update of a single row. -/
def updateFirst (p : AdaptedContent → Bool) (f : AdaptedContent → AdaptedContent) :
    List AdaptedContent → List AdaptedContent
  | [] => []
  | x :: xs => if p x then f x :: xs else x :: updateFirst p f xs

/-- `AdaptedContent.objects.update_or_create` plus the subsequent
challenge assignment of `adapt_content_for_student`
(src/learning/ai_tutor.py lines 336-349): if a row for (material,
student) exists, update its text, notes and learning style in place
(challenges are re-assigned only when the profile has any); otherwise
append a fresh row with default video fields (`pending`, no URL). -/
def update_or_create_adapted (db : List AdaptedContent) (material student : Nat)
    (text notes : List Char) (style : Option Nat) (challenges : List Nat) :
    List AdaptedContent :=
  if db.any (acKeyMatches material student) then
    updateFirst (acKeyMatches material student)
      (fun ac =>
        { ac with
          adaptedText := text, adaptationNotes := notes,
          appliedLearningStyle := style,
          appliedChallenges :=
            if challenges.isEmpty then ac.appliedChallenges else challenges }) db
  else
    db ++ [{ originalMaterial := material, student := student,
             adaptedText := text, adaptationNotes := notes,
             appliedLearningStyle := style, appliedChallenges := challenges,
             videoUrl := none, videoTalkId := none, videoDuration := none,
             videoGenerationStatus := VideoStatus.pending,
             videoErrorMessage := none, videoGeneratedAt := none }]

/-- The adapted-content part of the `material_detail` view
(src/learning/views.py lines 313-321): if a row for (material, student)
already exists it is only read; otherwise `adapt_content_for_student`
runs and creates one. -/
def material_detail_op (db : List AdaptedContent) (material student : Nat)
    (text notes : List Char) (style : Option Nat) (challenges : List Nat) :
    List AdaptedContent :=
  if db.any (acKeyMatches material student) then db
  else update_or_create_adapted db material student text notes style challenges

/-- The `generate_video` view as a transition on the whole table: look up
the requesting row; on 404 the table is unchanged, otherwise the row is
replaced by the outcome of `generate_video_step`. -/
def generate_video_op (db : List AdaptedContent) (material student : Nat)
    (style : Option Nat) (challenges : List Nat)
    (title description : List Char) (session : ProviderSession) (now : Nat) :
    List AdaptedContent :=
  match db.find? (acKeyMatches material student) with
  | none => db
  | some ac =>
    let r := generate_video_step db material ac style challenges title description
      session now
    updateFirst (acKeyMatches material student) (fun _ => r.entity) db

/-- One web-layer operation of the pipeline: a material view (lazy
creation of adapted content), a generation request, or a status poll. -/
inductive PipelineOp where
  | materialView (material student : Nat) (text notes : List Char)
      (style : Option Nat) (challenges : List Nat)
  | generateVideo (material student : Nat) (style : Option Nat)
      (challenges : List Nat) (title description : List Char)
      (session : ProviderSession) (now : Nat)
  | checkStatus (material student : Nat)

/-- Apply one pipeline operation to the adapted-content table.
`check_video_status` never writes. -/
def applyOp (db : List AdaptedContent) : PipelineOp → List AdaptedContent
  | PipelineOp.materialView m s t n st ch => material_detail_op db m s t n st ch
  | PipelineOp.generateVideo m s st ch ti d se now =>
      generate_video_op db m s st ch ti d se now
  | PipelineOp.checkStatus _ _ => db

/-- The adapted-content table reached by a sequence of pipeline
operations from the empty initial state. -/
def runOps (ops : List PipelineOp) : List AdaptedContent :=
  ops.foldl applyOp []

/-- At most one `AdaptedContent` row per (student, material) pair. -/
def uniqueKeys (db : List AdaptedContent) : Prop :=
  db.Pairwise (fun a b => a.student ≠ b.student ∨ a.originalMaterial ≠ b.originalMaterial)

/-- The video-fields invariant of one row: a truthy video reference is
present exactly when the generation status is `ready`. -/
def videoInvariant (ac : AdaptedContent) : Prop :=
  optTruthy ac.videoUrl = true ↔ ac.videoGenerationStatus = VideoStatus.ready

/-- The environment of one `generate_video` request: the table snapshot
consulted for the cache lookup, the URL material id, the requesting
profile (style, challenges), the material strings, the provider session
and the wall-clock value used for `video_generated_at`. -/
structure GenEnv where
  db : List AdaptedContent
  material : Nat
  style : Option Nat
  challenges : List Nat
  title : List Char
  description : List Char
  session : ProviderSession
  now : Nat

/-- The entity produced by serving one `generate_video` request on `ac`
in environment `e`. -/
def genStepEnv (ac : AdaptedContent) (e : GenEnv) : AdaptedContent :=
  (generate_video_step e.db e.material ac e.style e.challenges e.title
    e.description e.session e.now).entity

/-- The entity after serving a whole sequence of `generate_video`
requests, oldest first. -/
def genFold (ac : AdaptedContent) (envs : List GenEnv) : AdaptedContent :=
  envs.foldl genStepEnv ac

/-- Whether `needle` occurs contiguously at the start of `hay`. -/
def startsWithChars : List Char → List Char → Bool
  | _, [] => true
  | [], _ :: _ => false
  | h :: hs, n :: ns => h == n && startsWithChars hs ns

/-- Whether `needle` occurs contiguously anywhere inside `hay`. -/
def containsSub (hay needle : List Char) : Bool :=
  match hay with
  | [] => needle.isEmpty
  | _ :: t => startsWithChars hay needle || containsSub t needle

/-- The module-level namespace of `learning.models`
(src/learning/models.py): its imported names (lines 1-7) followed by the
classes it defines (lines 14-389).  No class named `AvatarVideo` exists
anywhere in the module. -/
def learning_models_namespace : List String :=
  ["models", "AbstractUser", "timezone", "settings", "random", "string",
   "datetime", "Institution", "ClassGroup", "User", "Challenge",
   "InstitutionAdmin", "LearningStyle", "StudentProfile", "TeacherProfile",
   "StudyMaterial", "AdaptedContent", "StudentProgress", "Assessment",
   "AssessmentResult"]

def python_from_import (ns : List String) : List String → Except String Unit
  | [] => Except.ok ()
  | n :: rest =>
    if ns.contains n then python_from_import ns rest
    else Except.error ("ImportError: cannot import name " ++ n)

/-- Module initialization of `learning.video_generator`
(src/learning/video_generator.py line 5): it begins by executing
`from .models import AvatarVideo, AdaptedContent, StudyMaterial,
StudentProfile`. -/
def import_learning_video_generator : Except String Unit :=
  python_from_import learning_models_namespace
    ["AvatarVideo", "AdaptedContent", "StudyMaterial", "StudentProfile"]

/-- Module initialization of `utils.middleware.refresh_presigned`
(src/utils/middleware/refresh_presigned.py line 4): it executes
`from learning.models import AvatarVideo`. -/
def import_refresh_presigned_middleware : Except String Unit :=
  python_from_import learning_models_namespace ["AvatarVideo"]

/-- Module initialization of the `regenerate_videos` management command
(src/learning/management/commands/regenerate_videos.py line 3): it
executes `from learning.models import AvatarVideo, AdaptedContent`. -/
def import_regenerate_videos_command : Except String Unit :=
  python_from_import learning_models_namespace ["AvatarVideo", "AdaptedContent"]

/-- `start_video_generation_thread`
(src/learning/video_generator.py lines 86-88) is defined inside
`learning.video_generator`, so it is callable only when that module
imports successfully. -/
def start_video_generation_thread_runnable : Bool :=
  match import_learning_video_generator with
  | Except.ok _ => true
  | Except.error _ => false

/-- Test fixture: a row whose render already completed, with a stored
D-ID result URL. -/
def sampleReady : AdaptedContent :=
  { originalMaterial := 1, student := 2,
    adaptedText := ("Adapted lesson text for the sample student, long enough.").data,
    adaptationNotes := [], appliedLearningStyle := some 4,
    appliedChallenges := [7, 5],
    videoUrl := some ("https://d-id.example/talks/tlk-1/result.mp4"),
    videoTalkId := some ("tlk-1"), videoDuration := some 42,
    videoGenerationStatus := VideoStatus.ready, videoErrorMessage := none,
    videoGeneratedAt := some 100 }

/-- Test fixture: a second student of the same material whose row is
still pending, with the same learning style and the same challenge set
(listed in another order). -/
def samplePending : AdaptedContent :=
  { originalMaterial := 1, student := 3,
    adaptedText := ("Adapted lesson text for the second student, long enough.").data,
    adaptationNotes := [], appliedLearningStyle := some 4,
    appliedChallenges := [5, 7], videoUrl := none, videoTalkId := none,
    videoDuration := none, videoGenerationStatus := VideoStatus.pending,
    videoErrorMessage := none, videoGeneratedAt := none }

/-- Test fixture: a provider session whose job never leaves the
`started` state, so every poll is non-terminal and the 180-second window
elapses. -/
def stuckSession : ProviderSession :=
  { submit_ok := true, submit_error := "", talk_id := "tlk-9", duration := 0,
    polls := fun _ => { status := "started", result_url := none, error := none },
    download := fun _ => { ok := true, chunks := [] } }

/-- Test fixture: a provider session that finishes on the first poll and
serves a chunked body for the result download. -/
def doneSession : ProviderSession :=
  { submit_ok := true, submit_error := "", talk_id := "tlk-7", duration := 33,
    polls := fun _ =>
      { status := "done",
        result_url := some ("https://d-id.example/talks/tlk-7/result.mp4"),
        error := none },
    download := fun _ => { ok := true, chunks := [[1, 2, 3], [4, 5, 6]] } }

/-- Test fixture: a provider session whose first poll reports the
terminal `error` state together with a provider-supplied error detail. -/
def errorSession : ProviderSession :=
  { submit_ok := true, submit_error := "", talk_id := "tlk-8", duration := 0,
    polls := fun _ =>
      { status := "error", result_url := none,
        error := some ("provider rejected the avatar image") },
    download := fun _ => { ok := false, chunks := [] } }

/-- The reuse condition claimed for the dedup index: a prior completed
render in the table for the same material, the same learning style and
an exactly equal challenge set (order-independent set equality). -/
def exactCompletedMatch (db : List AdaptedContent) (material : Nat)
    (style : Option Nat) (challenges : List Nat) (m : AdaptedContent) : Prop :=
  m ∈ db ∧ m.originalMaterial = material ∧ m.appliedLearningStyle = style ∧
    challengeSetEq m.appliedChallenges challenges = true ∧
    m.videoGenerationStatus = VideoStatus.ready ∧ m.videoUrl.isSome = true

/-- Test fixture: one generation-request environment over the sample
table. -/
def sampleEnv : GenEnv :=
  { db := [sampleReady]
    material := 1
    style := some 4
    challenges := [7, 5]
    title := ("Algebra").data
    description := ("Introductory material.").data
    session := stuckSession
    now := 400 }

/-- Test fixture: material title used by the sample requests. -/
def sampleTitle : List Char := ("Algebra").data

/-- Test fixture: material description used by the sample requests. -/
def sampleDescription : List Char := ("Introductory material.").data

/-- Test fixture: the lazily created row produced by the first material
view of student 2 on material 1. -/
def sampleCreatedRow : AdaptedContent :=
  { originalMaterial := 1, student := 2,
    adaptedText := ("Lesson one text.").data, adaptationNotes := [],
    appliedLearningStyle := some 4, appliedChallenges := [7, 5],
    videoUrl := none, videoTalkId := none, videoDuration := none,
    videoGenerationStatus := VideoStatus.pending, videoErrorMessage := none,
    videoGeneratedAt := none }

/-- Test fixture: a material view of material 1 by student 2. -/
def sampleViewOp : PipelineOp :=
  PipelineOp.materialView 1 2 (("Lesson one text.").data) [] (some 4) [7, 5]

/-- Test fixture: a mixed operation sequence with repeated views,
generation requests and a status poll for two students on one material. -/
def sampleOps : List PipelineOp :=
  [sampleViewOp,
   sampleViewOp,
   PipelineOp.generateVideo 1 2 (some 4) [7, 5] sampleTitle sampleDescription
     doneSession 100,
   PipelineOp.checkStatus 1 2,
   PipelineOp.materialView 1 3 (("Lesson one text.").data) [] (some 4) [5, 7],
   PipelineOp.generateVideo 1 3 (some 4) [5, 7] sampleTitle sampleDescription
     stuckSession 200]

/-- Test fixture: a chunked response body for a completed remote asset. -/
def sampleBody : HttpBody :=
  { ok := true, chunks := [[1, 2, 3], [4, 5, 6]] }

theorem matchesFilter_iff (material : Nat) (style : Option Nat) (c : AdaptedContent) :
    matchesFilter material style c = true ↔
      c.originalMaterial = material ∧ c.appliedLearningStyle = style ∧
      c.videoUrl.isSome = true ∧ c.videoGenerationStatus = VideoStatus.ready := by
  simp [matchesFilter, and_assoc]

theorem challengeSetEq_nil_iff (a : List Nat) :
    challengeSetEq a [] = true ↔ a = [] := by
  cases a <;> simp [challengeSetEq]

theorem find_matching_video_mem {db : List AdaptedContent} {material : Nat}
    {style : Option Nat} {challenges : List Nat} {m : AdaptedContent}
    (h : find_matching_video db material style challenges = some m) :
    m ∈ db ∧ matchesFilter material style m = true ∧
      challengeSetEq m.appliedChallenges challenges = true := by
  unfold find_matching_video at h
  by_cases hch : challenges.isEmpty = true
  · rw [if_pos hch] at h
    have hp := List.find?_some h
    have hmem := List.mem_of_find?_eq_some h
    rw [List.mem_filter] at hmem
    have h1 : m.appliedChallenges = [] := by simpa using hp
    have h2 : challenges = [] := by simpa using hch
    exact ⟨hmem.1, hmem.2, by simp [h1, h2, challengeSetEq]⟩
  · rw [if_neg hch] at h
    have hp := List.find?_some h
    have hmem := List.mem_of_find?_eq_some h
    rw [List.mem_filter] at hmem
    exact ⟨hmem.1, hmem.2, hp⟩

theorem find_matching_video_isSome {db : List AdaptedContent} {material : Nat}
    {style : Option Nat} {challenges : List Nat} {m : AdaptedContent}
    (hm : m ∈ db) (hf : matchesFilter material style m = true)
    (hc : challengeSetEq m.appliedChallenges challenges = true) :
    ∃ m', find_matching_video db material style challenges = some m' := by
  unfold find_matching_video
  by_cases hch : challenges.isEmpty = true
  · rw [if_pos hch]
    cases hfind : (db.filter (matchesFilter material style)).find?
        (fun c => c.appliedChallenges.isEmpty) with
    | some m' => exact ⟨m', rfl⟩
    | none =>
      exfalso
      rw [List.find?_eq_none] at hfind
      apply hfind m (List.mem_filter.mpr ⟨hm, hf⟩)
      have h2 : challenges = [] := by simpa using hch
      rw [h2] at hc
      simp [(challengeSetEq_nil_iff m.appliedChallenges).mp hc]
  · rw [if_neg hch]
    cases hfind : (db.filter (matchesFilter material style)).find?
        (fun c => challengeSetEq c.appliedChallenges challenges) with
    | some m' => exact ⟨m', rfl⟩
    | none =>
      exfalso
      rw [List.find?_eq_none] at hfind
      exact hfind m (List.mem_filter.mpr ⟨hm, hf⟩) hc

theorem create_video_success_url (s : List Char) (se : ProviderSession) :
    (create_video s se).success = true →
      optTruthy (create_video s se).video_url = true := by
  unfold create_video
  split
  · intro h; simp at h
  · split
    · intro h; simp at h
    · split
      · intro h; simp at h
      · split
        · intro h; simp at h
        · split
          · intro h; simp at h
          · intro _
            simp_all only [optTruthy]
            rename_i hurl _ _
            simp

theorem wait_for_video_aux_none (polls : Nat → PollResponse) :
    ∀ (fuel i : Nat),
      (∀ j, j < fuel → (polls (i + j)).status ≠ "done" ∧ (polls (i + j)).status ≠ "error") →
      wait_for_video_aux polls i fuel = none := by
  intro fuel
  induction fuel with
  | zero => intro i _; rfl
  | succ n ih =>
    intro i h
    have h0 := h 0 (Nat.succ_pos n)
    rw [Nat.add_zero] at h0
    unfold wait_for_video_aux
    have hd : ((polls i).status == "done") = false := by
      simpa using h0.1
    have he : ((polls i).status == "error") = false := by
      simpa using h0.2
    simp only [hd, he, Bool.false_eq_true, if_false]
    apply ih
    intro j hj
    have := h (j + 1) (Nat.succ_lt_succ hj)
    have harith : i + (j + 1) = i + 1 + j := by omega
    rw [harith] at this
    exact this

theorem generate_video_step_key (db : List AdaptedContent) (material : Nat)
    (ac : AdaptedContent) (style : Option Nat) (challenges : List Nat)
    (title description : List Char) (session : ProviderSession) (now : Nat) :
    (generate_video_step db material ac style challenges title description
      session now).entity.student = ac.student ∧
    (generate_video_step db material ac style challenges title description
      session now).entity.originalMaterial = ac.originalMaterial := by
  unfold generate_video_step
  split
  · exact ⟨rfl, rfl⟩
  · split
    · exact ⟨rfl, rfl⟩
    · split
      · exact ⟨rfl, rfl⟩
      · dsimp only
        split <;> exact ⟨rfl, rfl⟩

theorem generate_video_step_vinv {db : List AdaptedContent} {material : Nat}
    {ac : AdaptedContent} {style : Option Nat} {challenges : List Nat}
    {title description : List Char} {session : ProviderSession} {now : Nat}
    (hdb : ∀ m ∈ db, videoInvariant m) (hac : videoInvariant ac) :
    videoInvariant (generate_video_step db material ac style challenges title
      description session now).entity := by
  have hnt : optTruthy ac.videoUrl = true → ac.videoGenerationStatus = VideoStatus.ready :=
    fun h => hac.mp h
  unfold generate_video_step
  by_cases h1 : optTruthy ac.videoUrl = true ∧ ac.videoGenerationStatus = VideoStatus.ready
  · rw [if_pos h1]; exact hac
  · rw [if_neg h1]
    by_cases h2 : ac.videoGenerationStatus = VideoStatus.generating
    · rw [if_pos h2]; exact hac
    · rw [if_neg h2]
      have hfalse : optTruthy ac.videoUrl = false := by
        cases hx : optTruthy ac.videoUrl with
        | false => rfl
        | true => exact absurd ⟨hx, hnt hx⟩ h1
      cases hf : find_matching_video db material style challenges with
      | some m =>
        have hm := find_matching_video_mem hf
        have hfil := (matchesFilter_iff material style m).mp hm.2.1
        have hmv := hdb m hm.1
        constructor
        · intro _; rfl
        · intro _
          exact hmv.mpr hfil.2.2.2
      | none =>
        by_cases hs : (create_video (views_script ac.adaptedText title description)
            session).success = true
        · rw [if_pos hs]
          constructor
          · intro _; rfl
          · intro _
            exact create_video_success_url _ _ hs
        · rw [if_neg hs]
          constructor
          · intro hx; exact absurd hfalse (by simp [hx])
          · intro hx; exact absurd hx.symm (by simp)

theorem updateFirst_mem {p : AdaptedContent → Bool}
    {f : AdaptedContent → AdaptedContent} {l : List AdaptedContent}
    {x : AdaptedContent} (h : x ∈ updateFirst p f l) :
    x ∈ l ∨ ∃ a, a ∈ l ∧ p a = true ∧ x = f a := by
  induction l with
  | nil => simp [updateFirst] at h
  | cons y ys ih =>
    unfold updateFirst at h
    by_cases hy : p y = true
    · rw [if_pos hy] at h
      rcases List.mem_cons.mp h with h | h
      · exact Or.inr ⟨y, List.mem_cons_self y ys, hy, h⟩
      · exact Or.inl (List.mem_cons_of_mem y h)
    · rw [if_neg hy] at h
      rcases List.mem_cons.mp h with h | h
      · exact Or.inl (h ▸ List.mem_cons_self y ys)
      · rcases ih h with h | ⟨a, ha, hpa, hx⟩
        · exact Or.inl (List.mem_cons_of_mem y h)
        · exact Or.inr ⟨a, List.mem_cons_of_mem y ha, hpa, hx⟩

theorem updateFirst_length (p : AdaptedContent → Bool)
    (f : AdaptedContent → AdaptedContent) (l : List AdaptedContent) :
    (updateFirst p f l).length = l.length := by
  induction l with
  | nil => rfl
  | cons y ys ih =>
    unfold updateFirst
    by_cases hy : p y = true
    · rw [if_pos hy]; rfl
    · rw [if_neg hy]; simpa using ih

theorem updateFirst_uniqueKeys {p : AdaptedContent → Bool}
    {f : AdaptedContent → AdaptedContent} {l : List AdaptedContent}
    (hf : ∀ a, p a = true →
      (f a).student = a.student ∧ (f a).originalMaterial = a.originalMaterial)
    (h : uniqueKeys l) : uniqueKeys (updateFirst p f l) := by
  induction l with
  | nil => exact h
  | cons y ys ih =>
    rw [uniqueKeys, List.pairwise_cons] at h
    unfold updateFirst
    by_cases hy : p y = true
    · rw [if_pos hy, uniqueKeys, List.pairwise_cons]
      refine ⟨?_, h.2⟩
      intro b hb
      have hk := hf y hy
      rw [hk.1, hk.2]
      exact h.1 b hb
    · rw [if_neg hy, uniqueKeys, List.pairwise_cons]
      refine ⟨?_, ih h.2⟩
      intro b hb
      rcases updateFirst_mem hb with hb' | ⟨a, ha, hpa, rfl⟩
      · exact h.1 b hb'
      · have hk := hf a hpa
        rw [hk.1, hk.2]
        exact h.1 a ha

theorem append_one_uniqueKeys {db : List AdaptedContent} {new : AdaptedContent}
    (h : uniqueKeys db)
    (hnew : ∀ a ∈ db, a.student ≠ new.student ∨ a.originalMaterial ≠ new.originalMaterial) :
    uniqueKeys (db ++ [new]) := by
  rw [uniqueKeys, List.pairwise_append]
  exact ⟨h, List.pairwise_singleton _ _, fun a ha b hb => by
    rw [List.mem_singleton] at hb
    exact hb ▸ hnew a ha⟩

theorem acKeyMatches_iff (material student : Nat) (a : AdaptedContent) :
    acKeyMatches material student a = true ↔
      a.originalMaterial = material ∧ a.student = student := by
  simp [acKeyMatches]

theorem update_or_create_uniqueKeys {db : List AdaptedContent}
    {material student : Nat} {text notes : List Char} {style : Option Nat}
    {challenges : List Nat} (h : uniqueKeys db) :
    uniqueKeys (update_or_create_adapted db material student text notes style
      challenges) := by
  unfold update_or_create_adapted
  by_cases hex : db.any (acKeyMatches material student) = true
  · rw [if_pos hex]
    exact updateFirst_uniqueKeys (fun a _ => ⟨rfl, rfl⟩) h
  · rw [if_neg hex]
    apply append_one_uniqueKeys h
    intro a ha
    rw [List.any_eq_true] at hex
    push_neg at hex
    have hne := hex a ha
    have h2 : ¬(a.originalMaterial = material ∧ a.student = student) :=
      fun hc => hne ((acKeyMatches_iff material student a).mpr hc)
    rcases not_and_or.mp h2 with h' | h'
    · exact Or.inr h'
    · exact Or.inl h'

theorem applyOp_uniqueKeys {db : List AdaptedContent} (op : PipelineOp)
    (h : uniqueKeys db) : uniqueKeys (applyOp db op) := by
  cases op with
  | materialView m s t n st ch =>
    unfold applyOp material_detail_op
    dsimp only
    by_cases hex : db.any (acKeyMatches m s) = true
    · rw [if_pos hex]; exact h
    · rw [if_neg hex]; exact update_or_create_uniqueKeys h
  | generateVideo m s st ch ti d se now =>
    unfold applyOp generate_video_op
    dsimp only
    cases hfind : db.find? (acKeyMatches m s) with
    | none => exact h
    | some ac =>
      apply updateFirst_uniqueKeys _ h
      intro a hpa
      have hkey := generate_video_step_key db m ac st ch ti d se now
      have hacm := (acKeyMatches_iff m s ac).mp (List.find?_some hfind)
      have hamat := (acKeyMatches_iff m s a).mp hpa
      exact ⟨by rw [hkey.1, hacm.2, hamat.2], by rw [hkey.2, hacm.1, hamat.1]⟩
  | checkStatus m s => exact h

theorem runOps_uniqueKeys (ops : List PipelineOp) : uniqueKeys (runOps ops) := by
  have main : ∀ (l : List PipelineOp) (db : List AdaptedContent), uniqueKeys db →
      uniqueKeys (l.foldl applyOp db) := by
    intro l
    induction l with
    | nil => intro db h; exact h
    | cons op rest ih =>
      intro db h
      exact ih (applyOp db op) (applyOp_uniqueKeys op h)
  exact main ops [] List.Pairwise.nil

theorem update_or_create_vinv {db : List AdaptedContent} {material student : Nat}
    {text notes : List Char} {style : Option Nat} {challenges : List Nat}
    (h : ∀ m ∈ db, videoInvariant m) :
    ∀ m ∈ update_or_create_adapted db material student text notes style challenges,
      videoInvariant m := by
  intro m hm
  unfold update_or_create_adapted at hm
  by_cases hex : db.any (acKeyMatches material student) = true
  · rw [if_pos hex] at hm
    rcases updateFirst_mem hm with hm' | ⟨a, ha, _, rfl⟩
    · exact h m hm'
    · have := h a ha
      unfold videoInvariant at this ⊢
      exact this
  · rw [if_neg hex] at hm
    rcases List.mem_append.mp hm with hm' | hm'
    · exact h m hm'
    · rw [List.mem_singleton] at hm'
      rw [hm']
      unfold videoInvariant optTruthy
      simp
  

theorem applyOp_vinv {db : List AdaptedContent} (op : PipelineOp)
    (h : ∀ m ∈ db, videoInvariant m) : ∀ m ∈ applyOp db op, videoInvariant m := by
  cases op with
  | materialView m s t n st ch =>
    unfold applyOp material_detail_op
    dsimp only
    by_cases hex : db.any (acKeyMatches m s) = true
    · rw [if_pos hex]; exact h
    · rw [if_neg hex]; exact update_or_create_vinv h
  | generateVideo m s st ch ti d se now =>
    unfold applyOp generate_video_op
    dsimp only
    cases hfind : db.find? (acKeyMatches m s) with
    | none => exact h
    | some ac =>
      intro x hx
      rcases updateFirst_mem hx with hx' | ⟨a, _, _, rfl⟩
      · exact h x hx'
      · exact generate_video_step_vinv h
          (h ac (List.mem_of_find?_eq_some hfind))
  | checkStatus m s => exact h

theorem runOps_vinv (ops : List PipelineOp) :
    ∀ m ∈ runOps ops, videoInvariant m := by
  have main : ∀ (l : List PipelineOp) (db : List AdaptedContent),
      (∀ m ∈ db, videoInvariant m) → ∀ m ∈ l.foldl applyOp db, videoInvariant m := by
    intro l
    induction l with
    | nil => intro db h; exact h
    | cons op rest ih =>
      intro db h
      exact ih (applyOp db op) (applyOp_vinv op h)
  exact main ops [] (by intro m hm; simp at hm)

theorem generate_video_step_ready {db : List AdaptedContent} {material : Nat}
    {ac : AdaptedContent} {style : Option Nat} {challenges : List Nat}
    {title description : List Char} {session : ProviderSession} {now : Nat}
    (hurl : optTruthy ac.videoUrl = true)
    (hready : ac.videoGenerationStatus = VideoStatus.ready) :
    generate_video_step db material ac style challenges title description
        session now =
      { entity := ac, providerCalls := 0, savedStates := [],
        response := { success := true, video_url := ac.videoUrl,
                      status := some ("ready"), cached := some true,
                      error := none } } := by
  unfold generate_video_step
  rw [if_pos ⟨hurl, hready⟩]

theorem genFold_ready {ac : AdaptedContent}
    (hurl : optTruthy ac.videoUrl = true)
    (hready : ac.videoGenerationStatus = VideoStatus.ready)
    (envs : List GenEnv) : genFold ac envs = ac := by
  induction envs with
  | nil => rfl
  | cons e es ih =>
    unfold genFold at ih ⊢
    rw [List.foldl_cons]
    have hstep : genStepEnv ac e = ac := by
      unfold genStepEnv
      rw [generate_video_step_ready hurl hready]
    rw [hstep]
    exact ih

theorem generate_video_step_failure {db : List AdaptedContent} {material : Nat}
    {ac : AdaptedContent} {style : Option Nat} {challenges : List Nat}
    {title description : List Char} {session : ProviderSession} {now : Nat}
    (hguard1 : ¬(optTruthy ac.videoUrl = true ∧
      ac.videoGenerationStatus = VideoStatus.ready))
    (hguard2 : ac.videoGenerationStatus ≠ VideoStatus.generating)
    (hnocache : find_matching_video db material style challenges = none)
    (hfail : (create_video (views_script ac.adaptedText title description)
      session).success = false) :
    (generate_video_step db material ac style challenges title description
        session now).entity =
      { ac with
        videoGenerationStatus := VideoStatus.failed,
        videoErrorMessage := some ((create_video
          (views_script ac.adaptedText title description) session).error.getD
          ("Unknown error")) } ∧
    (generate_video_step db material ac style challenges title description
        session now).providerCalls = 1 ∧
    (generate_video_step db material ac style challenges title description
        session now).savedStates.head? =
      some { ac with videoGenerationStatus := VideoStatus.generating } := by
  unfold generate_video_step
  rw [if_neg hguard1, if_neg hguard2, hnocache]
  dsimp only
  rw [if_neg (by simp [hfail])]
  exact ⟨rfl, rfl, rfl⟩

/-- Claim C1: a generation request that reaches the cache lookup reuses a
prior completed render exactly when one exists for the same material,
the same learning style and an exactly equal challenge set (empty
matches only empty, partial overlap never matches); on reuse the
requesting row receives the cached asset reference and status
completed/ready with zero render-provider invocations. -/
theorem claim1_cache_reuse_iff_exact (db : List AdaptedContent)
    (material : Nat) (style : Option Nat) (challenges : List Nat)
    (ac : AdaptedContent) (title description : List Char)
    (session : ProviderSession) (now : Nat)
    (hguard1 : ¬(optTruthy ac.videoUrl = true ∧
      ac.videoGenerationStatus = VideoStatus.ready))
    (hguard2 : ac.videoGenerationStatus ≠ VideoStatus.generating) :
    (∀ m, find_matching_video db material style challenges = some m →
      exactCompletedMatch db material style challenges m) ∧
    ((∃ m, exactCompletedMatch db material style challenges m) →
      ∃ m', find_matching_video db material style challenges = some m') ∧
    (∀ m, find_matching_video db material style challenges = some m →
      (generate_video_step db material ac style challenges title description
        session now).entity.videoUrl = m.videoUrl ∧
      (generate_video_step db material ac style challenges title description
        session now).entity.videoGenerationStatus = VideoStatus.ready ∧
      (generate_video_step db material ac style challenges title description
        session now).providerCalls = 0) := by
  refine ⟨?_, ?_, ?_⟩
  · intro m hm
    have h := find_matching_video_mem hm
    have hf := (matchesFilter_iff material style m).mp h.2.1
    exact ⟨h.1, hf.1, hf.2.1, h.2.2, hf.2.2.2, hf.2.2.1⟩
  · rintro ⟨m, hmem, h1, h2, h3, h4, h5⟩
    exact find_matching_video_isSome hmem
      ((matchesFilter_iff material style m).mpr ⟨h1, h2, h5, h4⟩) h3
  · intro m hm
    unfold generate_video_step
    rw [if_neg hguard1, if_neg hguard2, hm]
    exact ⟨rfl, rfl, rfl⟩

/-- Concrete instantiation of claim C1: the second student (pending row,
challenge set listed as [5, 7]) reuses the completed render of the first
student (challenge set [7, 5]) for material 1 and style 4. -/
theorem claim1_cache_reuse_iff_exact_witness :
    (¬(optTruthy samplePending.videoUrl = true ∧
      samplePending.videoGenerationStatus = VideoStatus.ready)) ∧
    samplePending.videoGenerationStatus ≠ VideoStatus.generating ∧
    ((∀ m, find_matching_video [sampleReady] 1 (some 4) [5, 7] = some m →
      exactCompletedMatch [sampleReady] 1 (some 4) [5, 7] m) ∧
    ((∃ m, exactCompletedMatch [sampleReady] 1 (some 4) [5, 7] m) →
      ∃ m', find_matching_video [sampleReady] 1 (some 4) [5, 7] = some m') ∧
    (∀ m, find_matching_video [sampleReady] 1 (some 4) [5, 7] = some m →
      (generate_video_step [sampleReady] 1 samplePending (some 4) [5, 7]
        (("Algebra").data) (("Introductory material.").data) stuckSession
        200).entity.videoUrl = m.videoUrl ∧
      (generate_video_step [sampleReady] 1 samplePending (some 4) [5, 7]
        (("Algebra").data) (("Introductory material.").data) stuckSession
        200).entity.videoGenerationStatus = VideoStatus.ready ∧
      (generate_video_step [sampleReady] 1 samplePending (some 4) [5, 7]
        (("Algebra").data) (("Introductory material.").data) stuckSession
        200).providerCalls = 0)) :=
  ⟨by decide, by decide,
    claim1_cache_reuse_iff_exact [sampleReady] 1 (some 4) [5, 7] samplePending
      (("Algebra").data) (("Introductory material.").data) stuckSession 200
      (by decide) (by decide)⟩

/-- Claim C2: a generation request on a row that is already completed
(truthy stored reference, per the reachable-state invariant, and status
ready) returns the existing asset reference at once with zero provider
calls and no saves, leaves the row unchanged, and no sequence of later
generation requests ever moves the row out of ready (in particular never
back into generating). -/
theorem claim2_completed_short_circuit (db : List AdaptedContent)
    (material : Nat) (ac : AdaptedContent) (style : Option Nat)
    (challenges : List Nat) (title description : List Char)
    (session : ProviderSession) (now : Nat) (envs : List GenEnv)
    (hinv : videoInvariant ac)
    (hready : ac.videoGenerationStatus = VideoStatus.ready) :
    (generate_video_step db material ac style challenges title description
        session now).entity = ac ∧
    (generate_video_step db material ac style challenges title description
        session now).providerCalls = 0 ∧
    (generate_video_step db material ac style challenges title description
        session now).savedStates = [] ∧
    (generate_video_step db material ac style challenges title description
        session now).response.success = true ∧
    (generate_video_step db material ac style challenges title description
        session now).response.video_url = ac.videoUrl ∧
    genFold ac envs = ac ∧
    (genFold ac envs).videoGenerationStatus ≠ VideoStatus.generating := by
  have hurl : optTruthy ac.videoUrl = true := hinv.mpr hready
  have hstep := @generate_video_step_ready db material ac style challenges
    title description session now hurl hready
  have hfold := genFold_ready hurl hready envs
  refine ⟨?_, ?_, ?_, ?_, ?_, hfold, ?_⟩
  · rw [hstep]
  · rw [hstep]
  · rw [hstep]
  · rw [hstep]
  · rw [hstep]
  · rw [hfold, hready]
    intro hc
    exact absurd hc (by simp)

/-- Concrete instantiation of claim C2 on the completed sample row and a
one-request continuation. -/
theorem claim2_completed_short_circuit_witness :
    videoInvariant sampleReady ∧
    sampleReady.videoGenerationStatus = VideoStatus.ready ∧
    ((generate_video_step [sampleReady] 1 sampleReady (some 4) [7, 5]
        (("Algebra").data) (("Introductory material.").data) stuckSession
        300).entity = sampleReady ∧
    (generate_video_step [sampleReady] 1 sampleReady (some 4) [7, 5]
        (("Algebra").data) (("Introductory material.").data) stuckSession
        300).providerCalls = 0 ∧
    (generate_video_step [sampleReady] 1 sampleReady (some 4) [7, 5]
        (("Algebra").data) (("Introductory material.").data) stuckSession
        300).savedStates = [] ∧
    (generate_video_step [sampleReady] 1 sampleReady (some 4) [7, 5]
        (("Algebra").data) (("Introductory material.").data) stuckSession
        300).response.success = true ∧
    (generate_video_step [sampleReady] 1 sampleReady (some 4) [7, 5]
        (("Algebra").data) (("Introductory material.").data) stuckSession
        300).response.video_url = sampleReady.videoUrl ∧
    genFold sampleReady [sampleEnv] = sampleReady ∧
    (genFold sampleReady [sampleEnv]).videoGenerationStatus ≠
      VideoStatus.generating) :=
  ⟨by unfold videoInvariant; decide, by decide,
    claim2_completed_short_circuit [sampleReady] 1 sampleReady (some 4) [7, 5]
      (("Algebra").data) (("Introductory material.").data) stuckSession 300
      [sampleEnv] (by unfold videoInvariant; decide) (by decide)⟩

theorem generate_video_step_submit_proj {db : List AdaptedContent}
    {material : Nat} {ac : AdaptedContent} {style : Option Nat}
    {challenges : List Nat} {title description : List Char}
    {session : ProviderSession} {now : Nat}
    (hguard1 : ¬(optTruthy ac.videoUrl = true ∧
      ac.videoGenerationStatus = VideoStatus.ready))
    (hguard2 : ac.videoGenerationStatus ≠ VideoStatus.generating)
    (hnocache : find_matching_video db material style challenges = none) :
    (generate_video_step db material ac style challenges title description
        session now).providerCalls = 1 ∧
    (generate_video_step db material ac style challenges title description
        session now).savedStates.head? =
      some { ac with videoGenerationStatus := VideoStatus.generating } := by
  unfold generate_video_step
  rw [if_neg hguard1, if_neg hguard2, hnocache]
  dsimp only
  split
  · exact ⟨rfl, rfl⟩
  · exact ⟨rfl, rfl⟩

/-- Claim C3: when every poll within the 180-second window (36 polls at
5-second intervals) is non-terminal, the generation cycle ends with the
row failed and a non-empty persisted error message; a later generation
request on that failed row with no cache hit saves the row back in
`generating` first and invokes the provider again. -/
theorem claim3_timeout_fails_then_retry_generates (db : List AdaptedContent)
    (material : Nat) (ac : AdaptedContent) (style : Option Nat)
    (challenges : List Nat) (title description : List Char)
    (session : ProviderSession) (now : Nat) (db2 : List AdaptedContent)
    (material2 : Nat) (style2 : Option Nat) (challenges2 : List Nat)
    (title2 description2 : List Char) (session2 : ProviderSession) (now2 : Nat)
    (hurl : optTruthy ac.videoUrl = false)
    (hst : ac.videoGenerationStatus ≠ VideoStatus.generating)
    (hnocache : find_matching_video db material style challenges = none)
    (hsubmit : session.submit_ok = true)
    (hscript : ¬(pyStrip (views_script ac.adaptedText title description)).length < 3)
    (htimeout : ∀ i, i < 36 →
      (session.polls i).status ≠ "done" ∧ (session.polls i).status ≠ "error")
    (hnocache2 : find_matching_video db2 material2 style2 challenges2 = none) :
    (generate_video_step db material ac style challenges title description
        session now).entity.videoGenerationStatus = VideoStatus.failed ∧
    (generate_video_step db material ac style challenges title description
        session now).entity.videoErrorMessage =
      some ("Video generation failed or timed out") ∧
    (generate_video_step db material ac style challenges title description
        session now).entity.videoErrorMessage ≠ some ("") ∧
    (generate_video_step db2 material2
        (generate_video_step db material ac style challenges title description
          session now).entity style2 challenges2 title2 description2 session2
        now2).savedStates.head? =
      some { (generate_video_step db material ac style challenges title
          description session now).entity with
        videoGenerationStatus := VideoStatus.generating } ∧
    (generate_video_step db2 material2
        (generate_video_step db material ac style challenges title description
          session now).entity style2 challenges2 title2 description2 session2
        now2).providerCalls = 1 := by
  have hwait : wait_for_video session.polls 180 = none := by
    unfold wait_for_video
    apply wait_for_video_aux_none
    intro j hj
    have he : (180 + 4) / 5 = 36 := by norm_num
    rw [he] at hj
    simpa using htimeout j hj
  have hp : create_video_payload_script
      (views_script ac.adaptedText title description) =
      some (did_truncate (pyStrip (views_script ac.adaptedText title description))) := by
    unfold create_video_payload_script
    rw [if_neg hscript]
  have hcv : (create_video (views_script ac.adaptedText title description)
        session).error = some ("Video generation failed or timed out") ∧
      (create_video (views_script ac.adaptedText title description)
        session).success = false := by
    unfold create_video
    rw [hp]
    dsimp only
    rw [if_neg (by simp [hsubmit]), hwait]
    exact ⟨rfl, rfl⟩
  have hguard1 : ¬(optTruthy ac.videoUrl = true ∧
      ac.videoGenerationStatus = VideoStatus.ready) := by
    intro hcon
    rw [hurl] at hcon
    exact absurd hcon.1 (by simp)
  have hfl := @generate_video_step_failure db material ac style challenges
    title description session now hguard1 hst hnocache hcv.2
  have hvurl : (generate_video_step db material ac style challenges title
      description session now).entity.videoUrl = ac.videoUrl := by
    rw [hfl.1]
  have hvstat : (generate_video_step db material ac style challenges title
      description session now).entity.videoGenerationStatus =
      VideoStatus.failed := by
    rw [hfl.1]
  have hverr : (generate_video_step db material ac style challenges title
      description session now).entity.videoErrorMessage =
      some ((create_video (views_script ac.adaptedText title description)
        session).error.getD ("Unknown error")) := by
    rw [hfl.1]
  have hg1' : ¬(optTruthy (generate_video_step db material ac style challenges
      title description session now).entity.videoUrl = true ∧
      (generate_video_step db material ac style challenges title description
        session now).entity.videoGenerationStatus = VideoStatus.ready) := by
    intro hcon
    rw [hvurl, hurl] at hcon
    exact absurd hcon.1 (by simp)
  have hg2' : (generate_video_step db material ac style challenges title
      description session now).entity.videoGenerationStatus ≠
      VideoStatus.generating := by
    rw [hvstat]
    simp
  have hsub2 := @generate_video_step_submit_proj db2 material2
    (generate_video_step db material ac style challenges title description
      session now).entity style2 challenges2 title2 description2 session2 now2
    hg1' hg2' hnocache2
  refine ⟨hvstat, ?_, ?_, hsub2.2, hsub2.1⟩
  · rw [hverr, hcv.1]
    rfl
  · rw [hverr, hcv.1]
    simp

/-- Concrete instantiation of claim C3: the pending sample row, a
provider session stuck in `started`, then a retry against an empty
table. -/
theorem claim3_timeout_fails_then_retry_generates_witness :
    optTruthy samplePending.videoUrl = false ∧
    samplePending.videoGenerationStatus ≠ VideoStatus.generating ∧
    find_matching_video [samplePending] 1 (some 4) [5, 7] = none ∧
    stuckSession.submit_ok = true ∧
    ¬(pyStrip (views_script samplePending.adaptedText sampleTitle
      sampleDescription)).length < 3 ∧
    (∀ i, i < 36 → (stuckSession.polls i).status ≠ "done" ∧
      (stuckSession.polls i).status ≠ "error") ∧
    find_matching_video [] 1 (some 4) [5, 7] = none ∧
    ((generate_video_step [samplePending] 1 samplePending (some 4) [5, 7]
        sampleTitle sampleDescription stuckSession
        500).entity.videoGenerationStatus = VideoStatus.failed ∧
    (generate_video_step [samplePending] 1 samplePending (some 4) [5, 7]
        sampleTitle sampleDescription stuckSession
        500).entity.videoErrorMessage =
      some ("Video generation failed or timed out") ∧
    (generate_video_step [samplePending] 1 samplePending (some 4) [5, 7]
        sampleTitle sampleDescription stuckSession
        500).entity.videoErrorMessage ≠ some ("") ∧
    (generate_video_step [] 1
        (generate_video_step [samplePending] 1 samplePending (some 4) [5, 7]
          sampleTitle sampleDescription stuckSession 500).entity (some 4)
        [5, 7] sampleTitle sampleDescription stuckSession
        600).savedStates.head? =
      some { (generate_video_step [samplePending] 1 samplePending (some 4)
          [5, 7] sampleTitle sampleDescription stuckSession 500).entity with
        videoGenerationStatus := VideoStatus.generating } ∧
    (generate_video_step [] 1
        (generate_video_step [samplePending] 1 samplePending (some 4) [5, 7]
          sampleTitle sampleDescription stuckSession 500).entity (some 4)
        [5, 7] sampleTitle sampleDescription stuckSession
        600).providerCalls = 1) :=
  ⟨by decide, by decide, by decide, by decide, by decide, by decide, by decide,
    claim3_timeout_fails_then_retry_generates [samplePending] 1 samplePending
      (some 4) [5, 7] sampleTitle sampleDescription stuckSession 500 [] 1
      (some 4) [5, 7] sampleTitle sampleDescription stuckSession 600
      (by decide) (by decide) (by decide) (by decide) (by decide) (by decide)
      (by decide)⟩

/-- Counterexample to claim C4 as stated: the two-character script `hi`
is at or under the 3000-character cap, yet `create_video` rejects it for
its length (stripped length under 3) instead of submitting it. -/
theorem claim4_under_cap_script_rejected :
    ("hi").data.length ≤ 3000 ∧
    create_video_payload_script (("hi").data) = none ∧
    (create_video (("hi").data) doneSession).success = false ∧
    (create_video (("hi").data) doneSession).error =
      some ("Script is too short or empty") := by
  decide

/-- Claim C4 as amended: for scripts whose stripped text is at least 3
characters, an over-cap stripped script is submitted as exactly 3000
characters ending in the ellipsis marker, and an at-or-under-cap script
is submitted as its stripped text unmodified; scripts whose stripped
text is shorter than 3 characters are rejected as too short. -/
theorem claim4_payload_cap (s : List Char)
    (hlen : 3 ≤ (pyStrip s).length) :
    create_video_payload_script s = some (did_truncate (pyStrip s)) ∧
    ((pyStrip s).length > 3000 →
      (did_truncate (pyStrip s)).length = 3000 ∧
      ∃ t, did_truncate (pyStrip s) = t ++ ellipsis) ∧
    ((pyStrip s).length ≤ 3000 →
      create_video_payload_script s = some (pyStrip s)) := by
  have hnot : ¬(pyStrip s).length < 3 := by omega
  refine ⟨?_, ?_, ?_⟩
  · unfold create_video_payload_script
    rw [if_neg hnot]
  · intro hbig
    unfold did_truncate
    rw [if_pos hbig]
    constructor
    · rw [List.length_append, List.length_take]
      have : ellipsis.length = 3 := rfl
      rw [this]
      omega
    · exact ⟨(pyStrip s).take 2997, rfl⟩
  · intro hsmall
    unfold create_video_payload_script did_truncate
    rw [if_neg hnot, if_neg (by omega)]

/-- Concrete instantiation of the amended claim C4 on a short valid
script. -/
theorem claim4_payload_cap_witness :
    3 ≤ (pyStrip (("Hello students").data)).length ∧
    (create_video_payload_script (("Hello students").data) =
      some (did_truncate (pyStrip (("Hello students").data))) ∧
    ((pyStrip (("Hello students").data)).length > 3000 →
      (did_truncate (pyStrip (("Hello students").data))).length = 3000 ∧
      ∃ t, did_truncate (pyStrip (("Hello students").data)) = t ++ ellipsis) ∧
    ((pyStrip (("Hello students").data)).length ≤ 3000 →
      create_video_payload_script (("Hello students").data) =
        some (pyStrip (("Hello students").data)))) :=
  ⟨by decide, claim4_payload_cap (("Hello students").data) (by decide)⟩

/-- Claim C5: any sequence of material-view and generation operations
from the empty table leaves at most one `AdaptedContent` row per
(student, material) pair, and `update_or_create` on a pair that already
has a row keeps the row count unchanged (updates in place instead of
adding a second row). -/
theorem claim5_at_most_one_row_per_pair (ops : List PipelineOp)
    (db : List AdaptedContent) (material student : Nat)
    (text notes : List Char) (style : Option Nat) (challenges : List Nat)
    (hex : db.any (acKeyMatches material student) = true) :
    uniqueKeys (runOps ops) ∧
    (update_or_create_adapted db material student text notes style
      challenges).length = db.length := by
  refine ⟨runOps_uniqueKeys ops, ?_⟩
  unfold update_or_create_adapted
  rw [if_pos hex]
  exact updateFirst_length _ _ db

/-- Concrete instantiation of claim C5 on the mixed sample sequence and
an update of the completed sample row. -/
theorem claim5_at_most_one_row_per_pair_witness :
    [sampleReady].any (acKeyMatches 1 2) = true ∧
    (uniqueKeys (runOps sampleOps) ∧
    (update_or_create_adapted [sampleReady] 1 2 (("New text.").data) []
      (some 4) [7, 5]).length = [sampleReady].length) :=
  ⟨by decide,
    claim5_at_most_one_row_per_pair sampleOps [sampleReady] 1 2
      (("New text.").data) [] (some 4) [7, 5] (by decide)⟩

/-- Claim C6: every row of a table reachable by pipeline operations has
a truthy video reference exactly when its generation status is
completed/ready. -/
theorem claim6_reference_iff_completed (ops : List PipelineOp)
    (ac : AdaptedContent) (hmem : ac ∈ runOps ops) :
    optTruthy ac.videoUrl = true ↔
      ac.videoGenerationStatus = VideoStatus.ready :=
  runOps_vinv ops ac hmem

/-- Concrete instantiation of claim C6 on the row created by one
material view. -/
theorem claim6_reference_iff_completed_witness :
    sampleCreatedRow ∈ runOps [sampleViewOp] ∧
    (optTruthy sampleCreatedRow.videoUrl = true ↔
      sampleCreatedRow.videoGenerationStatus = VideoStatus.ready) :=
  ⟨by decide, claim6_reference_iff_completed [sampleViewOp] sampleCreatedRow
    (by decide)⟩

/-- Claim C7 (code bug in the source): when the provider reports the
terminal `error` state with an error detail, the raise inside the
polling loop is swallowed by the same try/except, `wait_for_video`
returns `None`, and the pipeline persists the generic message
`Video generation failed or timed out` — which does not contain the
provider-supplied detail — instead of that detail. -/
theorem claim7_provider_error_detail_dropped :
    (errorSession.polls 0).status = "error" ∧
    (errorSession.polls 0).error =
      some ("provider rejected the avatar image") ∧
    (create_video (views_script samplePending.adaptedText sampleTitle
      sampleDescription) errorSession).success = false ∧
    (create_video (views_script samplePending.adaptedText sampleTitle
      sampleDescription) errorSession).error =
      some ("Video generation failed or timed out") ∧
    (generate_video_step [] 1 samplePending (some 4) [5, 7] sampleTitle
      sampleDescription errorSession 100).entity.videoGenerationStatus =
      VideoStatus.failed ∧
    (generate_video_step [] 1 samplePending (some 4) [5, 7] sampleTitle
      sampleDescription errorSession 100).entity.videoErrorMessage =
      some ("Video generation failed or timed out") ∧
    containsSub (("Video generation failed or timed out").data)
      (("provider rejected the avatar image").data) = false := by
  decide

/-- Counterexample to claim C8 as stated: polling the completed sample
row returns the stored provider URL verbatim and generates no presigned
URL on that access. -/
theorem claim8_poll_returns_stored_url_verbatim :
    sampleReady.videoGenerationStatus = VideoStatus.ready ∧
    sampleReady.videoUrl =
      some ("https://d-id.example/talks/tlk-1/result.mp4") ∧
    (check_video_status [sampleReady] 1 2).video_url = sampleReady.videoUrl ∧
    (check_video_status [sampleReady] 1 2).presignCalls = 0 := by
  decide

/-- Claim C8 as amended: a status poll of an existing row echoes the
stored video URL, status and error message verbatim and performs zero
presigned-URL generations; stored temporary URLs are not regenerated on
access. -/
theorem claim8_status_poll_echoes_stored_fields (db : List AdaptedContent)
    (material student : Nat) (ac : AdaptedContent)
    (h : db.find? (acKeyMatches material student) = some ac) :
    (check_video_status db material student).video_url = ac.videoUrl ∧
    (check_video_status db material student).presignCalls = 0 ∧
    (check_video_status db material student).status =
      some (statusString ac.videoGenerationStatus) ∧
    (check_video_status db material student).error = ac.videoErrorMessage := by
  unfold check_video_status
  rw [h]
  exact ⟨rfl, rfl, rfl, rfl⟩

/-- Concrete instantiation of the amended claim C8 on the completed
sample row. -/
theorem claim8_status_poll_echoes_stored_fields_witness :
    [sampleReady].find? (acKeyMatches 1 2) = some sampleReady ∧
    ((check_video_status [sampleReady] 1 2).video_url = sampleReady.videoUrl ∧
    (check_video_status [sampleReady] 1 2).presignCalls = 0 ∧
    (check_video_status [sampleReady] 1 2).status =
      some (statusString sampleReady.videoGenerationStatus) ∧
    (check_video_status [sampleReady] 1 2).error =
      sampleReady.videoErrorMessage) :=
  ⟨by decide, claim8_status_poll_echoes_stored_fields [sampleReady] 1 2
    sampleReady (by decide)⟩

/-- Counterexample to claim C9 as stated: downloading a two-chunk body
returns the whole concatenated byte value at once, so the resident bytes
equal the full file size and exceed every single chunk — the transfer is
fully buffered in memory, never chunk-bounded. -/
theorem claim9_transfer_fully_buffered :
    download_video sampleBody = some ([1, 2, 3, 4, 5, 6]) ∧
    download_resident_bytes sampleBody =
      (response_content sampleBody.chunks).length ∧
    (∀ chunk ∈ sampleBody.chunks,
      chunk.length < download_resident_bytes sampleBody) := by
  decide

/-- Claim C9 as amended: every successful transfer materializes the
complete asset in process memory — `download_video` returns the whole
concatenated response body as one bytes value, and the peak resident
bytes equal the full file size. -/
theorem claim9_download_materializes_whole_file (body : HttpBody)
    (c : List Nat) (h : download_video body = some c) :
    c = response_content body.chunks ∧
    download_resident_bytes body = (response_content body.chunks).length ∧
    c.length = download_resident_bytes body := by
  unfold download_video at h
  by_cases hok : body.ok = true
  · rw [if_pos hok] at h
    have hc := Option.some.inj h
    subst hc
    exact ⟨rfl, rfl, rfl⟩
  · rw [if_neg hok] at h
    cases h

/-- Concrete instantiation of the amended claim C9 on the sample body. -/
theorem claim9_download_materializes_whole_file_witness :
    download_video sampleBody = some ([1, 2, 3, 4, 5, 6]) ∧
    ([1, 2, 3, 4, 5, 6] = response_content sampleBody.chunks ∧
    download_resident_bytes sampleBody =
      (response_content sampleBody.chunks).length ∧
    ([1, 2, 3, 4, 5, 6] : List Nat).length =
      download_resident_bytes sampleBody) :=
  ⟨by decide, claim9_download_materializes_whole_file sampleBody
    ([1, 2, 3, 4, 5, 6]) (by decide)⟩

/-- Claim C10: `learning.models` defines no name `AvatarVideo`, so the
module imports of `learning.video_generator`, the presigned-URL refresh
middleware and the `regenerate_videos` command all fail with an
ImportError, and `start_video_generation_thread` can never run. -/
theorem claim10_background_path_import_error :
    learning_models_namespace.contains ("AvatarVideo") = false ∧
    import_learning_video_generator =
      Except.error ("ImportError: cannot import name AvatarVideo") ∧
    import_refresh_presigned_middleware =
      Except.error ("ImportError: cannot import name AvatarVideo") ∧
    import_regenerate_videos_command =
      Except.error ("ImportError: cannot import name AvatarVideo") ∧
    start_video_generation_thread_runnable = false := by
  refine ⟨by decide, ?_, ?_, ?_, ?_⟩
  · rfl
  · rfl
  · rfl
  · decide
